import Mathlib

/-!
Shallow embedding of `segregation/network/network.py`.

The module under verification is glue over external geospatial libraries
(pandana, geopandas, pandas, urbanaccess).  The external engine operations
(nearest-node lookup, shortest-path costs, distance-decayed aggregation,
coordinate projection, OSM data fetch) are modelled as oracle functions
carried in `Engine` / `OsmSource`; everything the Python module itself does
(validation order, column writes, dict/DataFrame assembly, merging,
rounding, network reconstruction) is embedded executably below.

Numeric cell values and coordinates are modelled as `Rat` (the claims under
study do not concern floating-point rounding).  Python dicts are modelled as
insertion-ordered association lists with overwrite-on-repeat semantics,
matching `dict` behaviour; pandas DataFrames built from a dict of aligned
Series are modelled with the dict keys as columns and the union of the
Series indices (first-occurrence order) as the row index, matching pandas.
-/

set_option autoImplicit false

namespace Segregation

abbrev NodeId := Nat

/-- A planar coordinate.  `geom` of a GeoDataFrame row is the centroid of the
row geometry: the Python code only ever uses `.centroid.x` / `.centroid.y`,
so the centroid point is all the embedding needs to carry. -/
structure Point where
  x : Rat
  y : Rat
  deriving DecidableEq, Repr

/-- A coordinate reference system: its EPSG-like code and whether it is a
geographic (degree-based) CRS, the only two attributes the module reads. -/
structure CRS where
  code : Nat
  is_geographic : Bool
  deriving DecidableEq, Repr

def epsg4326 : CRS := { code := 4326, is_geographic := true }

/-- One row of a GeoDataFrame: its (centroid) geometry and its named numeric
columns as an association list. -/
structure GeoRow where
  geom : Point
  cols : List (String × Rat)
  deriving DecidableEq, Repr

/-- A GeoDataFrame.  The node-id column that `calc_access` (as `node_ids`)
and `compute_travel_cost_matrix` (as `osm_ids`) write is held in the
distinguished typed slot `node_col` (column name together with the values),
keeping node identifiers out of the numeric columns. -/
structure GeoDataFrame where
  rows : List GeoRow
  node_col : Option (String × List NodeId)
  crs : Option CRS
  deriving DecidableEq, Repr

/-- `gdf[c]` for a numeric column: the column values row by row.  A missing
column name would raise a `KeyError` in pandas; the claims only read columns
that are present, so absent entries default to `0` here. -/
def GeoDataFrame.column (gdf : GeoDataFrame) (c : String) : List Rat :=
  gdf.rows.map fun r => ((r.cols.lookup c).getD 0)

/-- View of `Except` as a sum, used to decide equality of results. -/
def exceptToSum {ε α : Type} : Except ε α → ε ⊕ α
  | .error e => .inl e
  | .ok a => .inr a

instance {ε α : Type} [DecidableEq ε] [DecidableEq α] : DecidableEq (Except ε α) :=
  fun a b =>
    decidable_of_iff (exceptToSum a = exceptToSum b)
      (by cases a <;> cases b <;> simp [exceptToSum])

/-- First-match lookup in an association list (Python `dict` access /
pandas index lookup). -/
def assoc {κ β : Type} [DecidableEq κ] (k : κ) : List (κ × β) → Option β
  | [] => none
  | e :: rest => if e.1 = k then some e.2 else assoc k rest

/-- Python `dict` assignment `d[k] = v`: overwrite in place when the key is
present, otherwise append, preserving insertion order. -/
def dictInsert {κ β : Type} [DecidableEq κ] (k : κ) (v : β) :
    List (κ × β) → List (κ × β)
  | [] => [(k, v)]
  | e :: rest => if e.1 = k then (k, v) :: rest else e :: dictInsert k v rest

/-- One edge of the routable network: endpoints and named weight columns
(the `edges_df` row restricted to what the module reads). -/
structure Edge where
  fr : NodeId
  toNode : NodeId
  weights : List (String × Rat)
  deriving DecidableEq, Repr

/-- The external pandana engine, as oracles over the network data.  The
shapes are fixed by pandana's interface: `nearest_node` returns one node id
per query point; `path_cost` is the pairwise shortest-path cost;
`aggregate_at` evaluates the decayed sum aggregation of the attached
per-node variable at one node (pandana's `aggregate` produces a value for
every node of the network). -/
structure Engine where
  nearest_node : List (NodeId × Point) → Point → NodeId
  path_cost : List (NodeId × Point) → List Edge → Bool → NodeId → NodeId → Rat
  aggregate_at : List (NodeId × Point) → List Edge → Bool → Rat → String → String →
    List (NodeId × Rat) → NodeId → Rat

/-- A `pandana.Network`: node table, edge table, the names of the weight
(impedance) columns, the directedness flag, and the engine that answers
queries over this data. -/
structure Network where
  nodes_df : List (NodeId × Point)
  edges_df : List Edge
  impedance_names : List String
  twoway : Bool
  engine : Engine

/-- Zip the constructor columns of `pandana.Network` back into edge rows. -/
def buildEdges (names : List String) :
    List NodeId → List NodeId → List (List Rat) → List Edge
  | f :: fs, t :: ts, w :: ws => ⟨f, t, names.zip w⟩ :: buildEdges names fs ts ws
  | _, _, _ => []

/-- `pandana.Network(node_x, node_y, edge_from, edge_to, edge_weights,
twoway)`: construct the network object from its column data.  The spatial
index pandana builds from the coordinates lives inside `engine`. -/
def pdna_network (engine : Engine) (nodes : List (NodeId × Point))
    (edge_from edge_to : List NodeId) (weight_names : List String)
    (edge_weights : List (List Rat)) (twoway : Bool) : Network :=
  { nodes_df := nodes
    edges_df := buildEdges weight_names edge_from edge_to edge_weights
    impedance_names := weight_names
    twoway := twoway
    engine := engine }

/-- `network.get_node_ids` for a single query point: snap to the nearest
network node. -/
def Network.get_node_ids (net : Network) (p : Point) : NodeId :=
  net.engine.nearest_node net.nodes_df p

/-- `network.shortest_path_lengths(nodes_a, nodes_b)`: pairwise costs;
pandana raises when the two node lists differ in length. -/
def Network.shortest_path_lengths (net : Network) (nodes_a nodes_b : List NodeId) :
    Except String (List Rat) :=
  if nodes_a.length = nodes_b.length then
    .ok ((nodes_a.zip nodes_b).map fun ab =>
      net.engine.path_cost net.nodes_df net.edges_df net.twoway ab.1 ab.2)
  else
    .error "shortest_path_lengths expects origin and destination lists of equal length"

/-- `network.set(node_ids, variable=values, name=name)`: attach a per-node
variable to the network state under `name` (overwriting any previous
variable of that name). -/
def network_set (store : List (String × List (NodeId × Rat)))
    (node_ids : List NodeId) (values : List Rat) (name : String) :
    List (String × List (NodeId × Rat)) :=
  dictInsert name (node_ids.zip values) store

/-- `network.aggregate(distance, type, decay, name)`: pandana returns a
Series holding one aggregated value for every node of the network, indexed
by node id. -/
def network_aggregate (net : Network) (distance : Rat) (aggtype decay : String)
    (attached : List (NodeId × Rat)) : List (NodeId × Rat) :=
  net.nodes_df.map fun np =>
    (np.1, net.engine.aggregate_at net.nodes_df net.edges_df net.twoway
      distance aggtype decay attached np.1)

/-- Observable engine calls, used to state that validation errors fire
before any engine work is attempted. -/
inductive Effect where
  | precompute (distance : Rat)
  | snap
  | setVariable (name : String)
  | aggregate (name : String)
  | fetch (south west north east : Rat)
  deriving DecidableEq, Repr

/-- numpy round-half-to-even of a rational to an integer (what
`DataFrame.round(0)` applies to every cell).  The fractional part
`q - floor q` equals `(q.num - floor q * q.den) / q.den`, so doubling the
numerator and comparing against the denominator compares the fractional
part against one half using integer arithmetic only. -/
def roundHalfToEvenInt (q : Rat) : Int :=
  let f := q.floor
  let twiceRem := 2 * (q.num - f * (q.den : Int))
  if twiceRem < (q.den : Int) then f
  else if (q.den : Int) < twiceRem then f + 1
  else if f % 2 = 0 then f else f + 1

def roundHalfToEven (q : Rat) : Rat := (roundHalfToEvenInt q : Rat)

/-- The `access` loop body of `calc_access`: for each variable, `network.set`
the column keyed by the snapped node ids, then `network.aggregate` it; the
resulting Series are collected in order.  `store` is the network's mutable
variable store threaded through the loop. -/
def accessLoop (net : Network) (gdf : GeoDataFrame) (snapped : List NodeId)
    (distance : Rat) (decay : String) :
    List String → List (String × List (NodeId × Rat)) → List (List (NodeId × Rat))
  | [], _ => []
  | v :: vs, store =>
    let store' := network_set store snapped (gdf.column v) v
    let series := network_aggregate net distance "sum" decay ((assoc v store').getD [])
    series :: accessLoop net gdf snapped distance decay vs store'

/-- Append the keys of `ks` that are not yet in `acc`, in order (pandas
Index union as used when assembling a DataFrame from aligned Series). -/
def unionKeys : List NodeId → List NodeId → List NodeId
  | acc, [] => acc
  | acc, k :: ks =>
    if k ∈ acc then unionKeys acc ks else unionKeys (acc ++ [k]) ks

/-- Row index of `pd.DataFrame(dict-of-Series)`: the union of the Series
indices in first-occurrence order (empty when there are no columns). -/
def frameIndex (cols : List (String × List (NodeId × Rat))) : List NodeId :=
  cols.foldl (fun acc c => unionKeys acc (c.2.map Prod.fst)) []

/-- Assemble `pd.DataFrame(dict-of-Series)` into rows `(index key, cell
values in column order)`.  All Series here share one index, so every lookup
succeeds; a genuinely missing cell would be NaN in pandas and is defaulted
to `0` here. -/
def accessFrame (cols : List (String × List (NodeId × Rat))) :
    List (NodeId × List Rat) :=
  (frameIndex cols).map fun k => (k, cols.map fun c => ((assoc k c.2).getD 0))

/-- `dict(zip(variables, access))`: pair the variable names with their
aggregate Series, with dict overwrite semantics on a repeated name. -/
def zipDict (varNames : List String) (series : List (List (NodeId × Rat))) :
    List (String × List (NodeId × Rat)) :=
  (varNames.zip series).foldl (fun d kv => dictInsert kv.1 kv.2 d) []

/-- The positional row index pandas attaches to a frame: position paired
with row, `0` upward. -/
def enumerate {α : Type} (l : List α) : List (Nat × α) :=
  (List.range l.length).zip l

/-- The merge step of the geometry-level branch:
`gdf[["node_ids", geometry]].merge(access, right_index=True,
left_on="node_ids", how="left")`.  Each left row keeps its positional
index; the matched aggregate cells are `none` (NaN) when the snapped node
id is absent from the aggregate frame's index. -/
def merge_left (left : List (Nat × NodeId × Point)) (frame : List (NodeId × List Rat)) :
    List (Nat × NodeId × Point × Option (List Rat)) :=
  left.map fun x => (x.1, x.2.1, x.2.2, assoc x.2.1 frame)

/-- `.dropna()`: keep exactly the rows whose aggregate cells are all
present.  A row either matched the aggregate index (all cells present) or
did not (all cells NaN), so presence of the matched row is the criterion. -/
def dropna (rowsIn : List (Nat × NodeId × Point × Option (List Rat))) :
    List (Nat × NodeId × Point × List Rat) :=
  rowsIn.filterMap fun x => x.2.2.2.map fun vs => (x.1, x.2.1, x.2.2.1, vs)

/-- Result value of `calc_access`: either the node-level frame (index node
id, one column per variable) or the geometry-level frame (positional index,
snapped node id, geometry, aggregate cells). -/
inductive AccessResult where
  | nodeLevel (cols : List String) (rows : List (NodeId × List Rat))
  | geomLevel (cols : List String) (rows : List (Nat × NodeId × Point × List Rat))
  deriving DecidableEq, Repr

/-- Outcome of a `calc_access` call: the returned value (or raised error),
the trace of engine calls made, and the final state of the caller's
geodataframe (the function writes its `node_ids` column in place). -/
structure CalcAccessOut where
  result : Except String AccessResult
  trace : List Effect
  geodataframe : GeoDataFrame

def calc_access (geodataframe : GeoDataFrame) (network : Network) (distance : Rat)
    (decay : String) (varNames : List String) (precompute : Bool)
    (return_node_data : Bool) : CalcAccessOut :=
  if decay = "" then
    { result := .error "You must pass a decay function such as `linear`"
      trace := []
      geodataframe := geodataframe }
  else
    let preTrace := if precompute then [Effect.precompute distance] else []
    let snapped := geodataframe.rows.map fun r => network.get_node_ids r.geom
    let gdf := { geodataframe with node_col := some ("node_ids", snapped) }
    let series := accessLoop network gdf snapped distance decay varNames []
    let access := zipDict varNames series
    let frame := accessFrame access
    let cols := access.map Prod.fst
    let trace := preTrace ++ [Effect.snap] ++
      (varNames.map fun v => [Effect.setVariable v, Effect.aggregate v]).flatten
    if return_node_data then
      { result := .ok (.nodeLevel cols
          (frame.map fun kr => (kr.1, kr.2.map roundHalfToEven)))
        trace := trace
        geodataframe := gdf }
    else
      --  gdf[["node_ids", geometry]]: positional index, snapped node id,
      --  geometry column.
      let left := ((enumerate gdf.rows).zip snapped).map fun x =>
        (x.1.1, x.2, x.1.2.geom)
      { result := .ok (.geomLevel cols (dropna (merge_left left frame)))
        trace := trace
        geodataframe := gdf }

/-- The final origin-destination matrix: row labels, column labels, and the
cell values in row-major order. -/
structure CostMatrix where
  rowLabels : List Rat
  colLabels : List Rat
  entries : List (List Rat)
  deriving DecidableEq, Repr

/-- Outcome of `compute_travel_cost_matrix`: the returned matrix (or raised
error) together with the final state of the caller's origin and destination
frames.  The function starts with `origins.copy()` / `destinations.copy()`
and writes the `osm_ids` column only on the copies, so the caller's frames
come back exactly as passed in. -/
structure CostMatrixOut where
  result : Except String CostMatrix
  origins : GeoDataFrame
  destinations : GeoDataFrame

/-- The per-origin loop of `compute_travel_cost_matrix`: for each snapped
origin id, `ods[f"{origin}"] = network.shortest_path_lengths([origin] *
len(origins), destinations["osm_ids"])`.  The dict key is the stringified
origin node id; stringification of distinct node ids is injective, so the
dict is keyed here by the node id itself.  Note the Python replicates the
origin `len(origins)` times (not `len(destinations)`), which the pairwise
engine call rejects whenever the two frames differ in length. -/
def buildOds (net : Network) (nOrigins : Nat) (dIds : List NodeId) :
    List NodeId → List (NodeId × List Rat) → Except String (List (NodeId × List Rat))
  | [], acc => .ok acc
  | o :: os, acc =>
    match net.shortest_path_lengths (List.replicate nOrigins o) dIds with
    | .error e => .error e
    | .ok v => buildOds net nOrigins dIds os (dictInsert o v acc)

def compute_travel_cost_matrix (origins destinations : GeoDataFrame)
    (network : Network) (reindex_name : Option String) : CostMatrixOut :=
  --  origins = origins.copy(); destinations = destinations.copy().
  --  The copies' "osm_ids" columns are the lists oIds and dIds below; the
  --  copies themselves are local, so only oIds/dIds are materialised.
  let oIds := origins.rows.map fun r => network.get_node_ids r.geom
  let dIds := destinations.rows.map fun r => network.get_node_ids r.geom
  let res : Except String CostMatrix :=
    match buildOds network origins.rows.length dIds oIds [] with
    | .error e => .error e
    | .ok ods =>
      match reindex_name with
      | some c =>
        --  pd.DataFrame(ods, index=origins[reindex_name]) lays each dict
        --  entry out as a column, so the rows range over the destination
        --  positions while both labellings come from the origins; pandas
        --  rejects the frame when a column's length differs from the
        --  index's, and the subsequent `df.columns = df.index` rejects a
        --  column count different from the row count.
        let idx := origins.column c
        if ods.any fun kv => kv.2.length ≠ idx.length then
          .error "Length of values does not match length of index"
        else if ods.length ≠ idx.length then
          .error "Length mismatch: expected axis has a different number of elements"
        else
          .ok { rowLabels := idx
                colLabels := idx
                entries := (List.range idx.length).map fun i =>
                  ods.map fun kv => (kv.2.get? i).getD 0 }
      | none =>
        --  pd.DataFrame(ods, index=origins) passes the whole origins frame
        --  as the index; pandas materialises it as a 2-D array and its
        --  Index constructor rejects 2-D data.
        .error "Index data must be 1-dimensional"
  { result := res, origins := origins, destinations := destinations }

/-- `geopandas` total bounds of the row geometries:
`(minx, miny, maxx, maxy)`. -/
structure Bounds where
  minx : Rat
  miny : Rat
  maxx : Rat
  maxy : Rat
  deriving DecidableEq, Repr

def totalBounds (gdf : GeoDataFrame) : Bounds :=
  match gdf.rows.map fun r => r.geom with
  | [] => { minx := 0, miny := 0, maxx := 0, maxy := 0 }
  | p :: ps =>
    { minx := ps.foldl (fun a q => min a q.x) p.x
      miny := ps.foldl (fun a q => min a q.y) p.y
      maxx := ps.foldl (fun a q => max a q.x) p.x
      maxy := ps.foldl (fun a q => max a q.y) p.y }

/-- `_reproject_osm_nodes(nodes_df, input_crs, output_crs)`: transform each
node coordinate point into the output CRS (the node index is preserved, the
recreated `x`/`y` columns are the transformed coordinates).  `tc` is the
external projection oracle. -/
def reproject_osm_nodes (tc : CRS → CRS → Point → Point)
    (nodes_df : List (NodeId × Point)) (input_crs output_crs : CRS) :
    List (NodeId × Point) :=
  nodes_df.map fun np => (np.1, tc input_crs output_crs np.2)

/-- The external collaborators of `get_osm_network`.
`ua_network_from_bbox` is the urbanaccess fetch, called with
`(south, west, north, east)` and returning a node table and an edge table
(with `from`, `to` and `distance` columns).  `transform` is the projection
oracle.  `buffered_bounds_4326` stands for the whole geographic-CRS branch
of the bounds computation — project to an estimated UTM CRS, buffer by
`maxdist`, reproject to EPSG:4326, take total bounds — all of which are
external geopandas geometry operations. -/
structure OsmSource where
  ua_network_from_bbox : Rat → Rat → Rat → Rat → List (NodeId × Point) × List (NodeId × NodeId × Rat)
  transform : CRS → CRS → Point → Point
  buffered_bounds_4326 : GeoDataFrame → Rat → Bounds

/-- Outcome of a `get_osm_network` call: the constructed network (or raised
error) and the trace of external fetch calls made. -/
structure OsmOut where
  result : Except String Network
  trace : List Effect

def get_osm_network (geodataframe : GeoDataFrame) (maxdist : Rat)
    (output_crs : Option CRS) (src : OsmSource) (engine : Engine) : OsmOut :=
  match geodataframe.crs with
  | none =>
    --  assert geodataframe.crs, "The input geodataframe must have a valid CRS set"
    { result := .error "The input geodataframe must have a valid CRS set"
      trace := [] }
  | some crs =>
    --  if not output_crs: output_crs = geodataframe.crs
    let ocrs := output_crs.getD crs
    let bounds :=
      if crs.is_geographic then
        --  geographic branch: estimate a UTM CRS, buffer by maxdist, and
        --  take the EPSG:4326 bounds of the buffered geometry (external).
        src.buffered_bounds_4326 geodataframe maxdist
      else
        --  projected branch: the raw, unbuffered total bounds.
        totalBounds geodataframe
    --  ua_network_from_bbox(bounds[1], bounds[0], bounds[3], bounds[2])
    let fetched := src.ua_network_from_bbox bounds.miny bounds.minx bounds.maxy bounds.maxx
    let nodes := reproject_osm_nodes src.transform fetched.1 epsg4326 ocrs
    let network := pdna_network engine nodes
      (fetched.2.map fun e => e.1) (fetched.2.map fun e => e.2.1)
      ["distance"] (fetched.2.map fun e => [e.2.2]) true
    { result := .ok network
      trace := [Effect.fetch bounds.miny bounds.minx bounds.maxy bounds.maxx] }

def project_network (network : Network) (output_crs : Option CRS)
    (input_crs : CRS) (tc : CRS → CRS → Point → Point) : Except String Network :=
  match output_crs with
  | none =>
    --  assert output_crs, "You must provide an output CRS"
    .error "You must provide an output CRS"
  | some ocrs =>
    let nodes := reproject_osm_nodes tc network.nodes_df input_crs ocrs
    --  pdna.Network(nodes.x, nodes.y, edges_df["from"], edges_df["to"],
    --               edges_df[impedance_names], twoway=network._twoway)
    .ok (pdna_network network.engine nodes
      (network.edges_df.map fun e => e.fr)
      (network.edges_df.map fun e => e.toNode)
      network.impedance_names
      (network.edges_df.map fun e =>
        network.impedance_names.map fun n => ((e.weights.lookup n).getD 0))
      network.twoway)

/-- Cell of a cost matrix at row position `i`, column position `j`. -/
def matrixEntry (m : CostMatrix) (i j : Nat) : Rat :=
  (((m.entries.get? i).getD []).get? j).getD 0

/-!  Concrete fixtures used to evaluate the embedded functions at explicit
inputs.  The engine snaps a point to the node id given by its integral `x`
coordinate, prices the path from node `a` to node `b` at `10 * a + b`
(asymmetric, so direction is observable), and aggregates to the attached
value at the node (`0` where nothing is attached). -/

def fixEngine : Engine :=
  { nearest_node := fun _ p => p.x.num.toNat
    path_cost := fun _ _ _ a b => ((10 * a + b : Nat) : Rat)
    aggregate_at := fun _ _ _ _ _ _ attached nid => (assoc nid attached).getD 0 }

def fixNet : Network :=
  { nodes_df := [(0, ⟨0, 0⟩), (1, ⟨1, 0⟩), (2, ⟨2, 0⟩), (3, ⟨3, 0⟩)]
    edges_df := [⟨0, 1, [("distance", 1)]⟩, ⟨1, 2, [("distance", 1)]⟩,
                 ⟨2, 3, [("distance", 1)]⟩]
    impedance_names := ["distance"]
    twoway := true
    engine := fixEngine }

def fixGdf : GeoDataFrame :=
  { rows := [{ geom := ⟨0, 0⟩, cols := [("pop", 3)] }]
    node_col := none
    crs := some { code := 3857, is_geographic := false } }

/-- A frame whose second row snaps to node id `9`, which does not exist in
`fixNet`, exercising the unmatched-row path of the geometry-level join. -/
def fixGdfStray : GeoDataFrame :=
  { rows := [{ geom := ⟨0, 0⟩, cols := [("pop", 3)] },
             { geom := ⟨9, 0⟩, cols := [("pop", 4)] }]
    node_col := none
    crs := some { code := 3857, is_geographic := false } }

def fixOrigins : GeoDataFrame :=
  { rows := [{ geom := ⟨0, 0⟩, cols := [("name", 5)] },
             { geom := ⟨1, 0⟩, cols := [("name", 7)] }]
    node_col := none
    crs := some { code := 3857, is_geographic := false } }

def fixDests : GeoDataFrame :=
  { rows := [{ geom := ⟨2, 0⟩, cols := [] }, { geom := ⟨3, 0⟩, cols := [] }]
    node_col := none
    crs := some { code := 3857, is_geographic := false } }

/-- The matrix `compute_travel_cost_matrix fixOrigins fixDests fixNet
(some "name")` actually returns. -/
def fixMatrix : CostMatrix :=
  { rowLabels := [5, 7], colLabels := [5, 7], entries := [[2, 12], [3, 13]] }

/-!  Helper lemmas. -/

theorem roundHalfToEven_den (q : Rat) : (roundHalfToEven q).den = 1 :=
  Rat.den_intCast _

theorem buildEdges_map (names : List String) (w : Edge → List Rat) (l : List Edge) :
    buildEdges names (l.map fun e => e.fr) (l.map fun e => e.toNode) (l.map w) =
      l.map fun e => { fr := e.fr, toNode := e.toNode, weights := names.zip (w e) } := by
  induction l with
  | nil => rfl
  | cons e l ih => simp [buildEdges, ih]

theorem zip_zip_map {α β γ : Type} (f : α → γ) :
    ∀ (idx : List β) (l : List α),
      (idx.zip l).zip (l.map f) = (idx.zip l).map fun p => (p, f p.2)
  | [], _ => by simp
  | _ :: _, [] => by simp
  | i :: is, a :: as => by simp [zip_zip_map f is as]

theorem zip_self_map {α β : Type} (g : α → β) (l : List α) :
    l.zip (l.map g) = l.map fun a => (a, g a) := by
  induction l with
  | nil => rfl
  | cons a l ih => simp [ih]

theorem dropna_merge_left (left : List (Nat × NodeId × Point))
    (frame : List (NodeId × List Rat)) :
    dropna (merge_left left frame) =
      left.filterMap fun x => (assoc x.2.1 frame).map fun vs => (x.1, x.2.1, x.2.2, vs) := by
  simp [dropna, merge_left, List.filterMap_map]
  rfl

theorem mem_dictInsert {κ β : Type} [DecidableEq κ] (k : κ) (v : β)
    (d : List (κ × β)) (e : κ × β) (he : e ∈ dictInsert k v d) :
    e = (k, v) ∨ e ∈ d := by
  induction d with
  | nil => simpa [dictInsert] using he
  | cons a d ih =>
    unfold dictInsert at he
    by_cases ha : a.1 = k
    · rw [if_pos ha] at he
      rcases List.mem_cons.1 he with he | he
      · exact .inl he
      · exact .inr (List.mem_cons_of_mem _ he)
    · rw [if_neg ha] at he
      rcases List.mem_cons.1 he with he | he
      · exact .inr (he ▸ List.mem_cons_self _ _)
      · rcases ih he with h | h
        · exact .inl h
        · exact .inr (List.mem_cons_of_mem _ h)

theorem dictInsert_ne_nil {κ β : Type} [DecidableEq κ] (k : κ) (v : β)
    (d : List (κ × β)) : dictInsert k v d ≠ [] := by
  cases d with
  | nil => simp [dictInsert]
  | cons a d => unfold dictInsert; split <;> simp

theorem foldl_dictInsert_mem {κ β : Type} [DecidableEq κ] (e : κ × β) :
    ∀ (pairs d0 : List (κ × β)),
      e ∈ pairs.foldl (fun d kv => dictInsert kv.1 kv.2 d) d0 → e ∈ d0 ∨ e ∈ pairs
  | [], _, h => .inl h
  | p :: ps, d0, h => by
    rcases foldl_dictInsert_mem e ps (dictInsert p.1 p.2 d0) h with h' | h'
    · rcases mem_dictInsert p.1 p.2 d0 e h' with h'' | h''
      · exact .inr (by simp [h''])
      · exact .inl h''
    · exact .inr (List.mem_cons_of_mem _ h')

theorem foldl_dictInsert_ne_nil {κ β : Type} [DecidableEq κ] :
    ∀ (pairs d0 : List (κ × β)), d0 ≠ [] →
      pairs.foldl (fun d kv => dictInsert kv.1 kv.2 d) d0 ≠ []
  | [], _, h => h
  | p :: ps, d0, _ =>
    foldl_dictInsert_ne_nil ps (dictInsert p.1 p.2 d0) (dictInsert_ne_nil _ _ _)

theorem zipDict_snd_mem (vars : List String) (series : List (List (NodeId × Rat)))
    (c : String × List (NodeId × Rat)) (hc : c ∈ zipDict vars series) :
    c.2 ∈ series := by
  obtain ⟨a, b⟩ := c
  rcases foldl_dictInsert_mem _ (vars.zip series) [] hc with h | h
  · cases h
  · exact (List.of_mem_zip h).2

theorem zipDict_ne_nil (vars : List String) (series : List (List (NodeId × Rat)))
    (hv : vars ≠ []) (hs : series ≠ []) : zipDict vars series ≠ [] := by
  unfold zipDict
  cases vars with
  | nil => exact absurd rfl hv
  | cons v vs =>
    cases series with
    | nil => exact absurd rfl hs
    | cons s ss =>
      simp only [List.zip_cons_cons, List.foldl_cons]
      exact foldl_dictInsert_ne_nil _ _ (dictInsert_ne_nil _ _ _)

theorem accessLoop_length (net : Network) (gdf : GeoDataFrame) (snapped : List NodeId)
    (distance : Rat) (decay : String) :
    ∀ (vars : List String) (store : List (String × List (NodeId × Rat))),
      (accessLoop net gdf snapped distance decay vars store).length = vars.length
  | [], _ => rfl
  | v :: vs, store => by
    simp [accessLoop, accessLoop_length net gdf snapped distance decay vs]

theorem network_aggregate_keys (net : Network) (distance : Rat) (t dec : String)
    (att : List (NodeId × Rat)) :
    (network_aggregate net distance t dec att).map Prod.fst = net.nodes_df.map Prod.fst := by
  simp [network_aggregate]

theorem accessLoop_keys (net : Network) (gdf : GeoDataFrame) (snapped : List NodeId)
    (distance : Rat) (decay : String) :
    ∀ (vars : List String) (store : List (String × List (NodeId × Rat)))
      (s : List (NodeId × Rat)),
      s ∈ accessLoop net gdf snapped distance decay vars store →
      s.map Prod.fst = net.nodes_df.map Prod.fst
  | [], _, s, hs => absurd hs (List.not_mem_nil s)
  | v :: vs, store, s, hs => by
    unfold accessLoop at hs
    rcases List.mem_cons.1 hs with h | h
    · exact h ▸ network_aggregate_keys net distance "sum" decay _
    · exact accessLoop_keys net gdf snapped distance decay vs _ s h

theorem unionKeys_subset : ∀ (ks acc : List NodeId) (k : NodeId),
    k ∈ unionKeys acc ks → k ∈ acc ∨ k ∈ ks
  | [], _, _, h => .inl h
  | a :: ks, acc, k, h => by
    unfold unionKeys at h
    by_cases ha : a ∈ acc
    · rw [if_pos ha] at h
      rcases unionKeys_subset ks acc k h with h' | h'
      · exact .inl h'
      · exact .inr (List.mem_cons_of_mem _ h')
    · rw [if_neg ha] at h
      rcases unionKeys_subset ks (acc ++ [a]) k h with h' | h'
      · rcases List.mem_append.1 h' with h'' | h''
        · exact .inl h''
        · exact .inr (by simpa using .inl (List.mem_singleton.1 h''))
      · exact .inr (List.mem_cons_of_mem _ h')

theorem unionKeys_of_all_mem : ∀ (ks acc : List NodeId),
    (∀ k ∈ ks, k ∈ acc) → unionKeys acc ks = acc
  | [], _, _ => rfl
  | k :: ks, acc, h => by
    unfold unionKeys
    rw [if_pos (h k (List.mem_cons_self _ _))]
    exact unionKeys_of_all_mem ks acc fun j hj => h j (List.mem_cons_of_mem _ hj)

theorem unionKeys_of_disjoint : ∀ (ks acc : List NodeId), ks.Nodup →
    (∀ k ∈ ks, k ∉ acc) → unionKeys acc ks = acc ++ ks
  | [], acc, _, _ => by simp [unionKeys]
  | k :: ks, acc, hn, hd => by
    unfold unionKeys
    rw [if_neg (hd k (List.mem_cons_self _ _))]
    rw [unionKeys_of_disjoint ks (acc ++ [k]) (List.nodup_cons.1 hn).2 ?_]
    · simp
    · intro j hj
      simp only [List.mem_append, List.mem_singleton, not_or]
      exact ⟨hd j (List.mem_cons_of_mem _ hj),
        fun he => (List.nodup_cons.1 hn).1 (he ▸ hj)⟩

theorem foldl_unionKeys_const (K : List NodeId) :
    ∀ (cols : List (String × List (NodeId × Rat))),
      (∀ c ∈ cols, c.2.map Prod.fst = K) →
      cols.foldl (fun acc c => unionKeys acc (c.2.map Prod.fst)) K = K
  | [], _ => rfl
  | c :: cs, h => by
    simp only [List.foldl_cons]
    rw [h c (List.mem_cons_self _ _), unionKeys_of_all_mem K K fun k hk => hk]
    exact foldl_unionKeys_const K cs fun c' hc' => h c' (List.mem_cons_of_mem _ hc')

theorem frameIndex_const (K : List NodeId) (cols : List (String × List (NodeId × Rat)))
    (hne : cols ≠ []) (hK : ∀ c ∈ cols, c.2.map Prod.fst = K) (hnd : K.Nodup) :
    frameIndex cols = K := by
  cases cols with
  | nil => exact absurd rfl hne
  | cons c cs =>
    unfold frameIndex
    simp only [List.foldl_cons]
    rw [hK c (List.mem_cons_self _ _),
      unionKeys_of_disjoint K [] hnd (by simp), List.nil_append]
    exact foldl_unionKeys_const K cs fun c' hc' => hK c' (List.mem_cons_of_mem _ hc')

theorem foldl_unionKeys_mem (k : NodeId) :
    ∀ (cols : List (String × List (NodeId × Rat))) (acc : List NodeId),
      k ∈ cols.foldl (fun acc c => unionKeys acc (c.2.map Prod.fst)) acc →
      k ∈ acc ∨ ∃ c ∈ cols, k ∈ c.2.map Prod.fst
  | [], _, h => .inl h
  | c :: cs, acc, h => by
    rcases foldl_unionKeys_mem k cs (unionKeys acc (c.2.map Prod.fst)) h with h' | h'
    · rcases unionKeys_subset _ _ _ h' with h'' | h''
      · exact .inl h''
      · exact .inr ⟨c, List.mem_cons_self _ _, h''⟩
    · rcases h' with ⟨c', hc', hk⟩
      exact .inr ⟨c', List.mem_cons_of_mem _ hc', hk⟩

theorem accessFrame_keys (cols : List (String × List (NodeId × Rat))) :
    (accessFrame cols).map Prod.fst = frameIndex cols := by
  simp only [accessFrame, List.map_map]
  exact List.map_id _

/-!  Claim theorems. -/

/-- Claim C1 (code bug evidence): at an explicit input the matrix returned
by `compute_travel_cost_matrix` is the transpose of what its own docstring
("Rows are origin indices, columns are destination indices") and the spec
promise.  Origins snap to nodes 0 and 1, destinations to nodes 2 and 3, and
the engine prices a path from node `a` to node `b` at `10 * a + b`.  The
cell at row 0, column 1 is `12`, the cost from origin 1's node to
destination 0's node, instead of `3`, the cost from origin 0's node to
destination 1's node: the loop writes each origin's cost vector as a dict
entry, and pandas lays dict entries out as columns, not rows. -/
theorem cost_matrix_is_transposed :
    (compute_travel_cost_matrix fixOrigins fixDests fixNet (some "name")).result =
      .ok fixMatrix ∧
    fixOrigins.rows.map (fun r => fixNet.get_node_ids r.geom) = [0, 1] ∧
    fixDests.rows.map (fun r => fixNet.get_node_ids r.geom) = [2, 3] ∧
    matrixEntry fixMatrix 0 1 =
      fixNet.engine.path_cost fixNet.nodes_df fixNet.edges_df fixNet.twoway 1 2 ∧
    fixNet.engine.path_cost fixNet.nodes_df fixNet.edges_df fixNet.twoway 0 3 = 3 ∧
    matrixEntry fixMatrix 0 1 ≠ 3 := by
  refine ⟨rfl, rfl, rfl, rfl, rfl, ?_⟩
  decide

/-- Claim C3: calling `calc_access` with a falsy decay argument raises the
explicit decay error immediately: no precomputation, node snapping,
variable attachment, or aggregation appears in the engine-call trace, and
the caller's geodataframe is returned untouched. -/
theorem calc_access_missing_decay_raises_first
    (gdf : GeoDataFrame) (net : Network) (distance : Rat)
    (varNames : List String) (pre rnd : Bool) :
    calc_access gdf net distance "" varNames pre rnd =
      { result := .error "You must pass a decay function such as `linear`"
        trace := []
        geodataframe := gdf } := by
  simp [calc_access]

/-- Claim C4: calling `get_osm_network` on a geodataframe without a CRS
raises the assertion error immediately: no fetch or construction call
appears in the trace. -/
theorem get_osm_network_missing_crs_raises_first
    (rows : List GeoRow) (nc : Option (String × List NodeId)) (maxdist : Rat)
    (ocrs : Option CRS) (src : OsmSource) (engine : Engine) :
    get_osm_network { rows := rows, node_col := nc, crs := none } maxdist ocrs src engine =
      { result := .error "The input geodataframe must have a valid CRS set"
        trace := [] } := rfl

/-- A geodataframe carrying an arbitrary projected (non-geographic) CRS. -/
def projectedGdf (rows : List GeoRow) (nc : Option (String × List NodeId))
    (code : Nat) : GeoDataFrame :=
  { rows := rows, node_col := nc, crs := some { code := code, is_geographic := false } }

/-- Claim C10: when the input CRS is projected (not geographic), `maxdist`
has no effect on `get_osm_network` — the outcome is identical for any two
buffer distances — and the bounding box handed to the external fetch (in
south, west, north, east order) is the unbuffered total bounds of the input
geometry. -/
theorem get_osm_network_projected_ignores_maxdist
    (rows : List GeoRow) (nc : Option (String × List NodeId)) (code : Nat)
    (maxdist maxdist' : Rat) (ocrs : Option CRS) (src : OsmSource) (engine : Engine) :
    get_osm_network (projectedGdf rows nc code) maxdist ocrs src engine =
      get_osm_network (projectedGdf rows nc code) maxdist' ocrs src engine ∧
    (get_osm_network (projectedGdf rows nc code) maxdist ocrs src engine).trace =
      [Effect.fetch (totalBounds (projectedGdf rows nc code)).miny
        (totalBounds (projectedGdf rows nc code)).minx
        (totalBounds (projectedGdf rows nc code)).maxy
        (totalBounds (projectedGdf rows nc code)).maxx] :=
  ⟨rfl, rfl⟩

/-- Claim C8: `project_network` with an output CRS succeeds and returns a
network whose edge endpoints, impedance (weight) columns, and directedness
flag are those of the input network; only the node coordinates change, by
the projection transform, with the node ids preserved. -/
theorem project_network_preserves_edges
    (network : Network) (ocrs input_crs : CRS) (tc : CRS → CRS → Point → Point) :
    ∃ net, project_network network (some ocrs) input_crs tc = .ok net ∧
      net.nodes_df = network.nodes_df.map (fun np => (np.1, tc input_crs ocrs np.2)) ∧
      net.edges_df = network.edges_df.map (fun e =>
        { fr := e.fr, toNode := e.toNode,
          weights := network.impedance_names.map fun n => (n, (e.weights.lookup n).getD 0) }) ∧
      net.impedance_names = network.impedance_names ∧
      net.twoway = network.twoway := by
  refine ⟨_, rfl, rfl, ?_, rfl, rfl⟩
  show buildEdges _ _ _ _ = _
  rw [buildEdges_map]
  simp [zip_self_map]

/-- Claim C2 (counterexample): at an explicit input with one geometry
snapping to node 0 of a four-node network, the node-level output of
`calc_access` is indexed by all four network node ids, not by the set of
snapped node ids `[0]` alone: pandana's aggregation produces a value for
every node of the network. -/
theorem calc_access_node_index_not_snapped :
    (calc_access fixGdf fixNet 2000 "linear" ["pop"] true true).result =
      .ok (.nodeLevel ["pop"] [(0, [3]), (1, [0]), (2, [0]), (3, [0])]) ∧
    fixGdf.rows.map (fun r => fixNet.get_node_ids r.geom) = [0] ∧
    ([0, 1, 2, 3] : List NodeId) ≠ [0] :=
  ⟨by decide, by decide, by decide⟩

/-- Claim C2 (amended): with a truthy decay, at least one variable, and
distinct network node ids, the index of the node-level DataFrame returned
by `calc_access` equals the full list of network node ids (a superset of
the snapped node ids), since the aggregation yields a value for every
network node. -/
theorem calc_access_node_index_is_network_nodes
    (gdf : GeoDataFrame) (net : Network) (distance : Rat) (decay : String)
    (varNames : List String) (pre : Bool)
    (hd : decay ≠ "") (hv : varNames ≠ [])
    (hn : (net.nodes_df.map Prod.fst).Nodup) :
    ∃ cols rows,
      (calc_access gdf net distance decay varNames pre true).result =
        .ok (.nodeLevel cols rows) ∧
      rows.map Prod.fst = net.nodes_df.map Prod.fst := by
  unfold calc_access
  rw [if_neg hd]
  refine ⟨_, _, rfl, ?_⟩
  rw [List.map_map]
  have hkeys : (List.map (Prod.fst ∘ fun kr => (kr.1, kr.2.map roundHalfToEven)) ·) =
      (List.map (Prod.fst (α := NodeId) (β := List Rat)) ·) := rfl
  rw [congrFun hkeys, accessFrame_keys]
  have hlen := accessLoop_length net
    { gdf with node_col := some ("node_ids",
        gdf.rows.map fun r => net.get_node_ids r.geom) }
    (gdf.rows.map fun r => net.get_node_ids r.geom) distance decay varNames []
  refine frameIndex_const _ _ (zipDict_ne_nil _ _ hv ?_) ?_ hn
  · intro hsnil
    exact hv (List.length_eq_zero.1 (by rw [← hlen, hsnil]; rfl))
  · intro c hc
    exact accessLoop_keys net _ _ distance decay varNames [] c.2
      (zipDict_snd_mem _ _ c hc)

/-- Claim C2 witness for the amended theorem, at the concrete fixture. -/
theorem calc_access_node_index_is_network_nodes_witness :
    (("linear" : String) ≠ "" ∧ (["pop"] : List String) ≠ [] ∧
      (fixNet.nodes_df.map Prod.fst).Nodup) ∧
    ∃ cols rows,
      (calc_access fixGdf fixNet 2000 "linear" ["pop"] true true).result =
        .ok (.nodeLevel cols rows) ∧
      rows.map Prod.fst = fixNet.nodes_df.map Prod.fst :=
  ⟨⟨by decide, by decide, by decide⟩,
    calc_access_node_index_is_network_nodes fixGdf fixNet 2000 "linear" ["pop"] true
      (by decide) (by decide) (by decide)⟩

/-- Claim C5: when `reindex_name` is given and `compute_travel_cost_matrix`
returns a matrix, its row labels are the origins' values in that column and
its column labels are set to the row labels (`df.columns = df.index`), so
the column labels mirror the row labels regardless of the destinations'
values. -/
theorem ctcm_reindex_row_and_col_labels
    (origins destinations : GeoDataFrame) (network : Network) (c : String)
    (m : CostMatrix)
    (h : (compute_travel_cost_matrix origins destinations network (some c)).result = .ok m) :
    m.rowLabels = origins.column c ∧ m.colLabels = m.rowLabels := by
  unfold compute_travel_cost_matrix at h
  dsimp only at h
  split at h
  · exact absurd h (by simp)
  · split at h
    · exact absurd h (by simp)
    · split at h
      · exact absurd h (by simp)
      · injection h with h
        subst h
        exact ⟨rfl, rfl⟩

/-- Claim C5 witness at the concrete fixture. -/
theorem ctcm_reindex_row_and_col_labels_witness :
    (compute_travel_cost_matrix fixOrigins fixDests fixNet (some "name")).result =
      .ok fixMatrix ∧
    (fixMatrix.rowLabels = fixOrigins.column "name" ∧
      fixMatrix.colLabels = fixMatrix.rowLabels) :=
  ⟨rfl, ctcm_reindex_row_and_col_labels fixOrigins fixDests fixNet "name" fixMatrix rfl⟩

/-- Claim C6: with geometry-level output, `calc_access` joins the
(unrounded) node-level aggregate frame back onto the original geometries by
each geometry's snapped node id, and drops exactly the rows whose snapped
node id has no entry in the aggregate frame's index; the node-level call on
the same inputs returns that same frame, rounded. -/
theorem calc_access_geom_join_drops_unmatched
    (gdf : GeoDataFrame) (net : Network) (distance : Rat) (decay : String)
    (varNames : List String) (pre : Bool) (hd : decay ≠ "") :
    ∃ cols frame,
      (calc_access gdf net distance decay varNames pre true).result =
        .ok (.nodeLevel cols (frame.map fun kr => (kr.1, kr.2.map roundHalfToEven))) ∧
      (calc_access gdf net distance decay varNames pre false).result =
        .ok (.geomLevel cols ((enumerate gdf.rows).filterMap fun p =>
          (assoc (net.get_node_ids p.2.geom) frame).map fun vs =>
            (p.1, net.get_node_ids p.2.geom, p.2.geom, vs))) := by
  unfold calc_access
  simp only [if_neg hd]
  refine ⟨_, _, rfl, ?_⟩
  have hleft : (((enumerate gdf.rows).zip (gdf.rows.map fun r => net.get_node_ids r.geom)).map
        fun x => (x.1.1, x.2, x.1.2.geom)) =
      (enumerate gdf.rows).map fun p =>
        (p.1, net.get_node_ids p.2.geom, p.2.geom) := by
    rw [enumerate, zip_zip_map, List.map_map]
    rfl
  rw [dropna_merge_left, hleft, List.filterMap_map]
  rfl

/-- Claim C6 witness: the fixture's second geometry snaps to node 9, which
is not a node of the network, so its row is dropped from the
geometry-level output. -/
theorem calc_access_geom_join_drops_unmatched_witness :
    ("linear" : String) ≠ "" ∧
    ∃ cols frame,
      (calc_access fixGdfStray fixNet 2000 "linear" ["pop"] true true).result =
        .ok (.nodeLevel cols (frame.map fun kr => (kr.1, kr.2.map roundHalfToEven))) ∧
      (calc_access fixGdfStray fixNet 2000 "linear" ["pop"] true false).result =
        .ok (.geomLevel cols ((enumerate fixGdfStray.rows).filterMap fun p =>
          (assoc (fixNet.get_node_ids p.2.geom) frame).map fun vs =>
            (p.1, fixNet.get_node_ids p.2.geom, p.2.geom, vs))) :=
  ⟨by decide,
    calc_access_geom_join_drops_unmatched fixGdfStray fixNet 2000 "linear" ["pop"] true
      (by decide)⟩

/-- Claim C7: with node-level output requested, every cell of the returned
DataFrame is a whole number (rounded by round-half-to-even), and every row
key is a node id of the network. -/
theorem calc_access_node_level_values_are_whole
    (gdf : GeoDataFrame) (net : Network) (distance : Rat) (decay : String)
    (varNames : List String) (pre : Bool) (hd : decay ≠ "") :
    ∃ cols rows,
      (calc_access gdf net distance decay varNames pre true).result =
        .ok (.nodeLevel cols rows) ∧
      (∀ r ∈ rows, ∀ v ∈ r.2, v.den = 1) ∧
      (∀ r ∈ rows, r.1 ∈ net.nodes_df.map Prod.fst) := by
  unfold calc_access
  rw [if_neg hd]
  refine ⟨_, _, rfl, ?_, ?_⟩
  · intro r hr v hv
    rcases List.mem_map.1 hr with ⟨kr, _, rfl⟩
    rcases List.mem_map.1 hv with ⟨q, _, rfl⟩
    exact roundHalfToEven_den q
  · intro r hr
    rcases List.mem_map.1 hr with ⟨kr, hkr, rfl⟩
    rcases List.mem_map.1 hkr with ⟨k, hk, rfl⟩
    unfold frameIndex at hk
    rcases foldl_unionKeys_mem _ _ _ hk with h | ⟨c, hc, hkc⟩
    · cases h
    · rw [accessLoop_keys net _ _ distance decay varNames [] c.2
        (zipDict_snd_mem _ _ c hc)] at hkc
      exact hkc

/-- Claim C7 witness at the concrete fixture. -/
theorem calc_access_node_level_values_are_whole_witness :
    ("linear" : String) ≠ "" ∧
    ∃ cols rows,
      (calc_access fixGdf fixNet 2000 "linear" ["pop"] true true).result =
        .ok (.nodeLevel cols rows) ∧
      (∀ r ∈ rows, ∀ v ∈ r.2, v.den = 1) ∧
      (∀ r ∈ rows, r.1 ∈ fixNet.nodes_df.map Prod.fst) :=
  ⟨by decide,
    calc_access_node_level_values_are_whole fixGdf fixNet 2000 "linear" ["pop"] true
      (by decide)⟩

/-- Claim C9 (counterexample): a `calc_access` call with a falsy decay
argument raises before the snap, so the caller's geodataframe comes back
with no `node_ids` column written — refuting the universally quantified
"every call mutates" reading. -/
theorem calc_access_falsy_decay_writes_nothing :
    (calc_access fixGdf fixNet 2000 "" ["pop"] true false).geodataframe = fixGdf ∧
    fixGdf.node_col = none := by
  constructor
  · simp [calc_access]
  · rfl

/-- Claim C9 (amended): every `calc_access` call that passes the decay
validation writes (or overwrites) the caller's `node_ids` column in place
with the snapped nearest-node ids, while `compute_travel_cost_matrix`
operates on copies and returns the caller's origins and destinations
unchanged. -/
theorem calc_access_mutates_ctcm_copies
    (gdf : GeoDataFrame) (net : Network) (distance : Rat) (decay : String)
    (varNames : List String) (pre rnd : Bool)
    (origins destinations : GeoDataFrame) (net2 : Network)
    (reindex_name : Option String) (hd : decay ≠ "") :
    (calc_access gdf net distance decay varNames pre rnd).geodataframe =
      { gdf with node_col := some ("node_ids",
          gdf.rows.map fun r => net.get_node_ids r.geom) } ∧
    (compute_travel_cost_matrix origins destinations net2 reindex_name).origins =
      origins ∧
    (compute_travel_cost_matrix origins destinations net2 reindex_name).destinations =
      destinations := by
  refine ⟨?_, rfl, rfl⟩
  unfold calc_access
  rw [if_neg hd]
  cases rnd <;> rfl

/-- Claim C9 witness for the amended theorem, at the concrete fixture. -/
theorem calc_access_mutates_ctcm_copies_witness :
    ("linear" : String) ≠ "" ∧
    ((calc_access fixGdf fixNet 2000 "linear" ["pop"] true false).geodataframe =
      { fixGdf with node_col := some ("node_ids",
          fixGdf.rows.map fun r => fixNet.get_node_ids r.geom) } ∧
    (compute_travel_cost_matrix fixOrigins fixDests fixNet (some "name")).origins =
      fixOrigins ∧
    (compute_travel_cost_matrix fixOrigins fixDests fixNet (some "name")).destinations =
      fixDests) :=
  ⟨by decide,
    calc_access_mutates_ctcm_copies fixGdf fixNet 2000 "linear" ["pop"] true false
      fixOrigins fixDests fixNet (some "name") (by decide)⟩

end Segregation
